import Mathlib

/-!
Verification of the media playback control engine of the sencloud-gui
repository (src/components/MediaPlayer.tsx).  The source file holds three
revisions of the component; the embedding below follows the revision each
claim points at:

* the episode-navigation revision (MediaPlayer.tsx lines 404-1780) for the
  fullscreen coordinator, controls-visibility timer, episode fetch,
  autoplay-on-ended, adjustVolume and skipTime;
* the fixed revision (lines 1780-2619) for the ground-truth togglePlayPause
  and changePlaybackRate.

Numbers (volume, playback rate, media time) are modelled as rationals;
browser timer handles as natural-number ids; the DOM media element as an
explicit record.  Timer callbacks and network responses are delivered as
explicit events so races can be stated.
-/

namespace Sencloud

/-! ## Playback controller commands (volume, mute, skip, rate)

Embedding of adjustVolume (MediaPlayer.tsx lines 916-925), skipTime
(lines 927-934) and changePlaybackRate (lines 2259-2266).  The DOM media
element returned by getCurrentMediaElement is an optional record: for an
image session it is null and each command returns without doing anything. -/

/-- DOM media element slice relevant to the commands: volume is the
element volume in the range 0 to 1, muted the element muted flag,
currentTime and playbackRate the element properties of the same names. -/
structure MediaEl where
  volume : ℚ
  muted : Bool
  currentTime : ℚ
  playbackRate : ℚ
  deriving Repr, DecidableEq

/-- React state slice of the controller plus the engine element
(getCurrentMediaElement result, none when the media is an image). -/
structure CtrlState where
  volume : ℚ
  isMuted : Bool
  currentTime : ℚ
  duration : ℚ
  playbackRate : ℚ
  engine : Option MediaEl
  deriving Repr, DecidableEq

/-- adjustVolume(delta), lines 916-925: newVolume = max(0, min(100,
volume + delta)); stores it, pushes newVolume/100 to the element, and
unconditionally clears the muted flag on both state and element. -/
def adjustVolume (s : CtrlState) (delta : ℚ) : CtrlState :=
  match s.engine with
  | none => s
  | some e =>
      let newVolume := max 0 (min 100 (s.volume + delta))
      { s with
          volume := newVolume
          isMuted := false
          engine := some { e with volume := newVolume / 100, muted := false } }

/-- skipTime(seconds), lines 927-934: no-op when the element is missing or
duration is 0; otherwise newTime = max(0, min(duration, currentTime +
seconds)) written to both element and state. -/
def skipTime (s : CtrlState) (seconds : ℚ) : CtrlState :=
  match s.engine with
  | none => s
  | some e =>
      if s.duration = 0 then s
      else
        let newTime := max 0 (min s.duration (s.currentTime + seconds))
        { s with
            currentTime := newTime
            engine := some { e with currentTime := newTime } }

/-- changePlaybackRate(rate), lines 2259-2266: clampedRate = max(0.25,
min(2, rate)) written to state and element. -/
def changePlaybackRate (s : CtrlState) (rate : ℚ) : CtrlState :=
  match s.engine with
  | none => s
  | some e =>
      let clampedRate := max (1/4) (min 2 rate)
      { s with
          playbackRate := clampedRate
          engine := some { e with playbackRate := clampedRate } }

/-! ## togglePlayPause: cached state versus engine ground truth

Two revisions coexist in the source.  The episode-navigation revision
(lines 885-905) branches on the cached React state isPlaying; the fixed
revision (lines 1926-1958) branches on the engine property
mediaElement.paused.  Engine commands play() and pause() flip the paused
property synchronously, while the cached isPlaying only changes when the
corresponding engine event is later delivered; in the scenario of the
claim no engine event has arrived yet, so the cached flag never moves. -/

/-- Command sent to the playback engine. -/
inductive Cmd where
  | play
  | pause
  deriving Repr, DecidableEq

/-- State for the toggle race: enginePaused is the ground-truth element
paused property, cachedIsPlaying the React isPlaying state (stale until an
engine event arrives), issued the list of commands sent so far. -/
structure ToggleSt where
  enginePaused : Bool
  cachedIsPlaying : Bool
  issued : List Cmd
  deriving Repr, DecidableEq

/-- togglePlayPause of the fixed revision (lines 1926-1958): consults
mediaElement.paused at call time. -/
def togglePlayPauseFixed (s : ToggleSt) : ToggleSt :=
  if s.enginePaused then
    { s with enginePaused := false, issued := s.issued ++ [Cmd.play] }
  else
    { s with enginePaused := true, issued := s.issued ++ [Cmd.pause] }

/-- togglePlayPause of the episode-navigation revision (lines 885-905):
consults the cached React state isPlaying, which does not move before the
first engine event. -/
def togglePlayPauseNav (s : ToggleSt) : ToggleSt :=
  if s.cachedIsPlaying then
    { s with enginePaused := true, issued := s.issued ++ [Cmd.pause] }
  else
    { s with enginePaused := false, issued := s.issued ++ [Cmd.play] }

/-- n repetitions of the fixed togglePlayPause with no intervening engine
event. -/
def iterateToggleFixed : Nat → ToggleSt → ToggleSt
  | 0, s => s
  | n + 1, s => iterateToggleFixed n (togglePlayPauseFixed s)

/-- n repetitions of the episode-navigation togglePlayPause with no
intervening engine event. -/
def iterateToggleNav : Nat → ToggleSt → ToggleSt
  | 0, s => s
  | n + 1, s => iterateToggleNav n (togglePlayPauseNav s)

/-! ## Episode context fetch (Episode Directory Service)

Embedding of fetchEpisodeData (lines 541-573).  The three REST calls are
awaited in sequence inside one try block; the catch block only logs.  All
three state setters run after the last await, so a rejection anywhere
leaves every context field untouched.  A resolved call carries a success
flag; on success=false the next and previous setters store null but the
episode list setter is skipped entirely. -/

/-- Outcome of one next/previous endpoint call: err when fetch or json
rejects, ok with the success flag and the optional episode payload. -/
inductive Resp where
  | err
  | ok (success : Bool) (payload : Option Nat)
  deriving Repr, DecidableEq

/-- Outcome of the series endpoint call. -/
inductive SeriesResp where
  | err
  | ok (success : Bool) (episodes : List Nat)
  deriving Repr, DecidableEq

/-- Episode context held in component state: nextEpisode, previousEpisode,
episodeList (episodes named by ids). -/
structure EpCtx where
  next : Option Nat
  prev : Option Nat
  list : List Nat
  deriving Repr, DecidableEq

/-- Context of a freshly mounted player: all three absent or empty. -/
def emptyCtx : EpCtx := { next := none, prev := none, list := [] }

/-- fetchEpisodeData (lines 541-573) applied to the prior context and the
three call outcomes.  Any rejection reaches the catch block before any
setter has run, so the context is returned unchanged; when all three
resolve, next and previous are set from the success flags (null on
non-success) while the list is only overwritten on series success. -/
def fetchEpisodeData (c : EpCtx) (rNext rPrev : Resp) (rSeries : SeriesResp) :
    EpCtx :=
  match rNext, rPrev, rSeries with
  | Resp.ok sN pN, Resp.ok sP pP, SeriesResp.ok sS eps =>
      { next := if sN then pN else none
        prev := if sP then pP else none
        list := if sS then eps else c.list }
  | _, _, _ => c

/-- Display decision of handleEnded (lines 1076-1087): the next-episode
prompt when autoplayNext is set and a next episode is known, otherwise the
recommendations overlay when the host supplied any recommendations. -/
inductive EndedDisplay where
  | nextPrompt
  | recommendations
  | nothing
  deriving Repr, DecidableEq

/-- handleEnded overlay choice as a function of autoplayNext, the fetched
next episode and the number of host recommendations. -/
def handleEndedDisplay (autoplayNext : Bool) (next : Option Nat)
    (recommendedCount : Nat) : EndedDisplay :=
  if autoplayNext && next.isSome then EndedDisplay.nextPrompt
  else if 0 < recommendedCount then EndedDisplay.recommendations
  else EndedDisplay.nothing

/-! ## Session replacement versus in-flight fetch

The effect at lines 941-978 reacts to a media change by resetting playback
state and overlays, but it does not reset the episode context, and
fetchEpisodeData carries no record of which session a response belongs to:
whenever a response resolves, its setters run against whatever session is
current. -/

/-- Session-level state: the id of the currently loaded session and the
episode context shown against it. -/
structure SessSt where
  sessionId : Nat
  ctx : EpCtx
  deriving Repr, DecidableEq

/-- Events of the replacement race: replace swaps in a new session id (the
effect at lines 941-978 resets overlays and playback but not the episode
context); resolve delivers the outcome of a fetch that was started for
session forId. -/
inductive SessEv where
  | replace (newId : Nat)
  | resolve (forId : Nat) (rNext rPrev : Resp) (rSeries : SeriesResp)
  deriving Repr, DecidableEq

/-- Step of the session machine.  A resolving fetch applies
fetchEpisodeData unconditionally: the code never compares forId with the
current session id. -/
def sessStep (s : SessSt) : SessEv → SessSt
  | SessEv.replace n => { s with sessionId := n }
  | SessEv.resolve _ rN rP rS => { s with ctx := fetchEpisodeData s.ctx rN rP rS }

/-- Run of the session machine over a list of events. -/
def sessRun (s : SessSt) (es : List SessEv) : SessSt := es.foldl sessStep s

/-! ## Autoplay countdown after ended

Embedding of the autoplay part of handleEnded (lines 1067-1088), the
Cancel button of the next-episode overlay (lines 1704-1710) and
playNextEpisode (lines 576-590).  handleEnded schedules a bare
setTimeout(5000) whose handle is never stored; the Cancel button only runs
setShowNextEpisode(false).  Expiry of a scheduled timeout runs
playNextEpisode when a next episode is still known, which fires the
replace through onRecommendedSelect. -/

/-- State of the autoplay countdown: the overlay flag, the fetched next
episode, the autoplay toggle, the ids of scheduled (unexpired) 5-second
timeouts, the episodes for which a replace has fired, and the next fresh
timeout id. -/
structure AutoSt where
  showNextEpisode : Bool
  nextEp : Option Nat
  autoplayNext : Bool
  pendingAutoplay : List Nat
  replaced : List Nat
  nextId : Nat
  deriving Repr, DecidableEq

/-- Events of the countdown machine: the ended engine event, a press of
the Cancel button, and the expiry of timeout id. -/
inductive AutoEv where
  | ended
  | cancel
  | expire (id : Nat)
  deriving Repr, DecidableEq

/-- Step of the countdown machine.  On ended with autoplay and a next
episode the overlay is shown and a 5-second timeout is scheduled (its
handle is not stored anywhere, lines 1080-1084).  Cancel only hides the
overlay (lines 1704-1710): no timeout is cleared.  An expiry of a live
timeout runs playNextEpisode when nextEp is present, recording the
replace and hiding the overlay (lines 576-590). -/
def autoStep (s : AutoSt) : AutoEv → AutoSt
  | AutoEv.ended =>
      if s.autoplayNext && s.nextEp.isSome then
        { s with
            showNextEpisode := true
            pendingAutoplay := s.pendingAutoplay ++ [s.nextId]
            nextId := s.nextId + 1 }
      else s
  | AutoEv.cancel => { s with showNextEpisode := false }
  | AutoEv.expire id =>
      if id ∈ s.pendingAutoplay then
        let s1 := { s with pendingAutoplay := s.pendingAutoplay.erase id }
        match s1.nextEp with
        | some ep =>
            { s1 with replaced := s1.replaced ++ [ep], showNextEpisode := false }
        | none => s1
      else s

/-- Run of the countdown machine over a list of events. -/
def autoRun (s : AutoSt) (es : List AutoEv) : AutoSt := es.foldl autoStep s

/-- Countdown state right after a session with a known next episode and
autoplay enabled has loaded: overlay hidden, no timeout scheduled. -/
def autoStart (ep : Nat) : AutoSt :=
  { showNextEpisode := false, nextEp := some ep, autoplayNext := true,
    pendingAutoplay := [], replaced := [], nextId := 0 }

/-! ## Fullscreen coordinator and controls-visibility timer

Embedding of the episode-navigation revision: enterMobileFullscreen
(lines 624-690), exitMobileFullscreen (lines 692-741), enterFullscreen
(lines 744-776), exitFullscreen (lines 778-805), toggleFullscreen
(lines 807-826), handleMouseMove (lines 867-882), the fullscreenchange
handler (lines 981-1027), the media event handlers (lines 1053-1144), the
mouse-leave prop (line 1278) and the click-to-toggle overlay
(lines 1758-1763).

Browser calls that can fail (orientation lock, native fullscreen request,
native fullscreen exit) are driven by an oracle of booleans: availability
of the API and success of the call.  A native fullscreen transition
dispatches the fullscreenchange handler; the handler runs before control
returns to the toggling code, so it is folded into the same step.  When
the handler arms its delayed 500ms handleMouseMove call it merely causes a
later mouse-move, which traces already contain as an explicit event, so
the delayed call is represented by a subsequent mouseMove event.
Outstanding hide-timer handles are a list of ids so that the single-timer
claim is about a genuine count; the ref controlsTimeoutRef holds the id
the component would clear. -/

/-- Device class, probed once from the user agent (lines 525-528). -/
inductive Device where
  | desktop
  | mobile
  deriving Repr, DecidableEq

/-- Outcomes of the browser calls a fullscreen transition makes:
lockOk for screen.orientation.lock, nativeAvail and nativeOk for the
container requestFullscreen chain, webkitAvail and webkitOk for the iOS
video webkitRequestFullscreen fallback, exitAvail and exitOk for the
document exitFullscreen chain. -/
structure FsOracle where
  lockOk : Bool
  nativeAvail : Bool
  nativeOk : Bool
  webkitAvail : Bool
  webkitOk : Bool
  exitAvail : Bool
  exitOk : Bool
  deriving Repr, DecidableEq

/-- Player state: device class, media flags, the controls overlay flag,
the three fullscreen flags of the component, the emulated styling and
scroll-lock side effects, the orientation lock, the controlsTimeoutRef
content, the list of scheduled (unexpired) hide-timeout ids and a fresh-id
counter. -/
structure PSt where
  device : Device
  isPlaying : Bool
  isImage : Bool
  showControls : Bool
  isFullscreen : Bool
  isMobileFullscreen : Bool
  isNativeFullscreen : Bool
  emulatedStyles : Bool
  scrollLocked : Bool
  orientationLocked : Bool
  ctRef : Option Nat
  pending : List Nat
  nextId : Nat
  deriving Repr, DecidableEq

/-- Spec-level fullscreen mode read off the component flags. -/
inductive FsMode where
  | windowed
  | nativeFullscreen
  | emulatedFullscreen
  deriving Repr, DecidableEq

/-- FullscreenState of the data model: native when the browser reports a
fullscreen element, emulated when only the component flags are up,
windowed otherwise. -/
def fullscreenState (s : PSt) : FsMode :=
  if s.isNativeFullscreen then FsMode.nativeFullscreen
  else if s.isFullscreen || s.isMobileFullscreen then FsMode.emulatedFullscreen
  else FsMode.windowed

/-- clearTimeout(controlsTimeoutRef.current) followed by nulling the ref
(the pattern at lines 871-874 and its copies): the ref id is removed from
the scheduled set. -/
def cancelHide (s : PSt) : PSt :=
  match s.ctRef with
  | none => s
  | some id => { s with pending := s.pending.erase id, ctRef := none }

/-- Guard of the auto-hide arm at line 877: some fullscreen mode, playing,
and not an image. -/
def hideGuard (s : PSt) : Bool :=
  (s.isFullscreen || s.isMobileFullscreen) && s.isPlaying && !s.isImage

/-- handleMouseMove (lines 867-882): show the controls, clear the pending
timeout if any, and re-arm a 3-second hide timeout only under the guard. -/
def handleMouseMove (s : PSt) : PSt :=
  let s1 := cancelHide { s with showControls := true }
  if hideGuard s1 then
    { s1 with
        ctRef := some s1.nextId
        pending := s1.pending ++ [s1.nextId]
        nextId := s1.nextId + 1 }
  else s1

/-- Expiry of hide timeout id (the callback at lines 878-880): hides the
controls.  The callback does not null the ref, matching the source. -/
def fireHide (s : PSt) (id : Nat) : PSt :=
  if id ∈ s.pending then
    { s with pending := s.pending.erase id, showControls := false }
  else s

/-- fullscreenchange handler (lines 981-1027) for a native transition to
Boolean b: records the native flag, recomputes isFullscreen as native or
mobile, and when no fullscreen mode remains forces the controls visible
and clears the pending timeout; when fullscreen remains it shows the
controls (its delayed handleMouseMove call is a later mouseMove event of
the trace). -/
def fullscreenChange (s : PSt) (b : Bool) : PSt :=
  let s1 := { s with
                isNativeFullscreen := b
                isFullscreen := b || s.isMobileFullscreen }
  if !(b || s1.isMobileFullscreen) then
    { (cancelHide s1) with showControls := true }
  else
    { s1 with showControls := true }

/-- enterMobileFullscreen (lines 624-690): best-effort orientation lock,
set the mobile flag, apply the fixed-position styling, try the container
native request and fall back to the iOS video webkit request, then lock
page scrolling.  A successful native request dispatches fullscreenchange. -/
def enterMobileFullscreen (s : PSt) (o : FsOracle) : PSt :=
  let s1 := { s with orientationLocked := s.orientationLocked || o.lockOk }
  let s2 := { s1 with isMobileFullscreen := true, emulatedStyles := true }
  let s3 :=
    if o.nativeAvail then
      if o.nativeOk then fullscreenChange { s2 with isNativeFullscreen := true } true
      else s2
    else if o.webkitAvail && o.webkitOk then
      fullscreenChange { s2 with isNativeFullscreen := true } true
    else s2
  { s3 with scrollLocked := true }

/-- exitMobileFullscreen (lines 692-741): unlock orientation, drop the
mobile flag, clear the styling, then exit native fullscreen when the
native flag is up (a throwing exit reaches the catch block and skips both
the native flag reset and the scroll restore); finally restore scrolling. -/
def exitMobileFullscreen (s : PSt) (o : FsOracle) : PSt :=
  let s1 := { s with orientationLocked := false }
  let s2 := { s1 with isMobileFullscreen := false, emulatedStyles := false }
  if s2.isNativeFullscreen then
    if o.exitAvail then
      if o.exitOk then
        let s3 := fullscreenChange s2 false
        { s3 with isNativeFullscreen := false, scrollLocked := false }
      else s2
    else { s2 with isNativeFullscreen := false, scrollLocked := false }
  else { s2 with scrollLocked := false }

/-- enterFullscreen, desktop path (lines 744-776): request native
fullscreen through the vendor chain; a throwing request reaches the catch
block and falls back to the emulated flag; an absent API takes the
explicit fallback branch which also best-effort locks orientation. -/
def enterFullscreenDesktop (s : PSt) (o : FsOracle) : PSt :=
  if o.nativeAvail then
    if o.nativeOk then fullscreenChange s true
    else { s with isFullscreen := true }
  else
    { s with isFullscreen := true, orientationLocked := s.orientationLocked || o.lockOk }

/-- exitFullscreen, desktop path (lines 778-805): call the document exit
chain; the call only resolves when a native fullscreen element exists, and
a rejection reaches the catch block which drops the emulated flag; an
absent API takes the explicit fallback branch. -/
def exitFullscreenDesktop (s : PSt) (o : FsOracle) : PSt :=
  if o.exitAvail then
    if s.isNativeFullscreen && o.exitOk then fullscreenChange s false
    else { s with isFullscreen := false }
  else
    { s with isFullscreen := false, orientationLocked := false }

/-- toggleFullscreen (lines 807-826): branch on the combined flag and the
device class, then assign isFullscreen the negated combined flag. -/
def toggleFullscreen (s : PSt) (o : FsOracle) : PSt :=
  let cur := s.isFullscreen || s.isMobileFullscreen
  let s1 :=
    if cur then
      match s.device with
      | Device.mobile => exitMobileFullscreen s o
      | Device.desktop => exitFullscreenDesktop s o
    else
      match s.device with
      | Device.mobile => enterMobileFullscreen s o
      | Device.desktop => enterFullscreenDesktop s o
  { s1 with isFullscreen := !cur }

/-- Events driving the player machine: pointer activity, the
click-to-toggle overlay, expiry of a hide timeout, the normalized engine
events, a browser-initiated native fullscreen transition, and the
toggleFullscreen command with its oracle. -/
inductive PEv where
  | mouseMove
  | mouseLeave
  | overlayClick
  | hideTimeout (id : Nat)
  | playEvt
  | pauseEvt
  | endedEvt
  | errorEvt
  | fschange (b : Bool)
  | toggleFs (o : FsOracle)
  deriving Repr, DecidableEq

/-- Step of the player machine.  mouseLeave only shows the controls
(line 1278); the click-to-toggle overlay (lines 1758-1763) receives
pointer events only while the controls are hidden, so it can only show
them; playEvt (lines 1090-1097) shows the controls without touching the
timeout; pauseEvt and endedEvt (lines 1067-1074 and 1099-1109) show the
controls and clear the timeout; errorEvt (lines 1114-1119) shows the
controls but does not clear the timeout. -/
def step (s : PSt) : PEv → PSt
  | PEv.mouseMove => handleMouseMove s
  | PEv.mouseLeave => { s with showControls := true }
  | PEv.overlayClick => if s.showControls then s else { s with showControls := true }
  | PEv.hideTimeout id => fireHide s id
  | PEv.playEvt => { s with isPlaying := true, showControls := true }
  | PEv.pauseEvt => { (cancelHide s) with isPlaying := false, showControls := true }
  | PEv.endedEvt => { (cancelHide s) with isPlaying := false, showControls := true }
  | PEv.errorEvt => { s with isPlaying := false, showControls := true }
  | PEv.fschange b => fullscreenChange s b
  | PEv.toggleFs o => toggleFullscreen s o

/-- Run of the player machine over a list of events. -/
def run (s : PSt) (es : List PEv) : PSt := es.foldl step s

/-- State of a freshly opened session (lines 941-964): controls visible,
windowed, nothing scheduled. -/
def initState (d : Device) (img : Bool) : PSt :=
  { device := d, isPlaying := false, isImage := img, showControls := true,
    isFullscreen := false, isMobileFullscreen := false,
    isNativeFullscreen := false, emulatedStyles := false,
    scrollLocked := false, orientationLocked := false,
    ctRef := none, pending := [], nextId := 0 }

/-- Failure of a next/previous endpoint call as the spec groups them: the
call rejected, or it resolved with success=false. -/
def respFails : Resp → Bool
  | Resp.err => true
  | Resp.ok s _ => !s

/-- Failure of the series endpoint call. -/
def seriesFails : SeriesResp → Bool
  | SeriesResp.err => true
  | SeriesResp.ok s _ => !s

/-- Events allowed by the amended visibility invariant: no engine error
event, and every toggleFullscreen finds the whole native API chain
available and succeeding. -/
def allowedEv : PEv → Bool
  | PEv.errorEvt => false
  | PEv.toggleFs o => o.nativeAvail && o.nativeOk && o.exitAvail && o.exitOk
  | _ => true

/-- Synchronisation of the ref with the scheduled hide timeouts: every
scheduled id is the single scheduled id and is the one the ref holds. -/
def refSynced (s : PSt) : Prop :=
  ∀ id ∈ s.pending, s.pending = [id] ∧ s.ctRef = some id

/-- Inductive invariant behind the amended visibility claim, for desktop
traces whose fullscreen toggles find a working native API: the device
stays desktop, mobile fullscreen is never entered, fullscreen implies
native fullscreen, the timer ref is synchronised, the controls are
visible whenever the state is not playing in fullscreen, and a scheduled
hide timeout implies playing in fullscreen. -/
def InvC2 (s : PSt) : Prop :=
  s.device = Device.desktop ∧
  s.isMobileFullscreen = false ∧
  (s.isFullscreen = true → s.isNativeFullscreen = true) ∧
  refSynced s ∧
  (s.isPlaying = false ∨ s.isFullscreen = false → s.showControls = true) ∧
  (s.pending ≠ [] → s.isPlaying = true ∧ s.isFullscreen = true)

/-- Sample media element for concrete witnesses. -/
def sampleEl : MediaEl :=
  { volume := 3/4, muted := false, currentTime := 3, playbackRate := 1 }

/-- Sample controller state for concrete witnesses: volume 75, unmuted,
currentTime 3 seconds, duration 100 seconds, rate 1, engine present. -/
def sampleCtrl : CtrlState :=
  { volume := 75, isMuted := false, currentTime := 3, duration := 100,
    playbackRate := 1, engine := some sampleEl }

/-! ## Theorems -/

theorem refSynced_cases {s : PSt} (h : refSynced s) :
    s.pending = [] ∨ ∃ id, s.pending = [id] ∧ s.ctRef = some id := by
  rcases hp : s.pending with _ | ⟨a, t⟩
  · exact Or.inl rfl
  · refine Or.inr ⟨a, ?_⟩
    have := h a (by rw [hp]; exact List.mem_cons_self a t)
    rw [hp] at this
    exact this

theorem cancelHide_spec {s : PSt} (h : refSynced s) :
    (cancelHide s).pending = [] ∧ (cancelHide s).ctRef = none := by
  rcases refSynced_cases h with hp | ⟨id, hp, hr⟩
  · unfold cancelHide
    rcases hr : s.ctRef with _ | r
    · exact ⟨hp, hr⟩
    · simp [hp]
  · unfold cancelHide
    rw [hr]
    simp [hp]

theorem refSynced_congr {s t : PSt} (h : refSynced s)
    (hp : t.pending = s.pending) (hr : t.ctRef = s.ctRef) : refSynced t := by
  intro id hid
  rw [hp] at hid ⊢
  rw [hr]
  exact h id hid

theorem refSynced_cancelHide {s : PSt} (h : refSynced s) :
    refSynced (cancelHide s) := by
  intro id hid
  rw [(cancelHide_spec h).1] at hid
  cases hid

theorem refSynced_fullscreenChange {s : PSt} (h : refSynced s) (b : Bool) :
    refSynced (fullscreenChange s b) := by
  have h1 : refSynced { s with
      isNativeFullscreen := b, isFullscreen := b || s.isMobileFullscreen } :=
    fun id hid => h id hid
  have h2 := cancelHide_spec h1
  unfold fullscreenChange
  dsimp only
  split
  · intro id hid
    dsimp only at hid
    rw [h2.1] at hid
    cases hid
  · exact fun id hid => h1 id hid

theorem refSynced_handleMouseMove {s : PSt} (h : refSynced s) :
    refSynced (handleMouseMove s) := by
  have h1 : refSynced { s with showControls := true } := fun id hid => h id hid
  have h2 := cancelHide_spec h1
  unfold handleMouseMove
  dsimp only
  split
  · intro id hid
    dsimp only at hid
    rw [h2.1] at hid
    rw [List.nil_append, List.mem_singleton] at hid
    subst hid
    refine ⟨?_, rfl⟩
    dsimp only
    rw [h2.1]
    rfl
  · exact refSynced_cancelHide h1

theorem refSynced_fireHide {s : PSt} (h : refSynced s) (id : Nat) :
    refSynced (fireHide s id) := by
  unfold fireHide
  split
  · rename_i hmem
    rcases refSynced_cases h with hp | ⟨j, hp, hr⟩
    · rw [hp] at hmem
      cases hmem
    · rw [hp] at hmem
      rcases List.mem_singleton.mp hmem with rfl
      intro k hk
      simp [hp] at hk
  · exact h

theorem refSynced_enterMobile {s : PSt} (h : refSynced s) (o : FsOracle) :
    refSynced (enterMobileFullscreen s o) := by
  have h2 : refSynced { { { s with
      orientationLocked := s.orientationLocked || o.lockOk } with
      isMobileFullscreen := true, emulatedStyles := true } with
      isNativeFullscreen := true } :=
    fun id hid => h id hid
  have h3 := refSynced_fullscreenChange h2 true
  unfold enterMobileFullscreen
  dsimp only
  split
  · split
    · exact fun id hid => h3 id hid
    · exact fun id hid => h id hid
  · split
    · exact fun id hid => h3 id hid
    · exact fun id hid => h id hid

theorem refSynced_exitMobile {s : PSt} (h : refSynced s) (o : FsOracle) :
    refSynced (exitMobileFullscreen s o) := by
  have h2 : refSynced { { s with orientationLocked := false } with
      isMobileFullscreen := false, emulatedStyles := false } :=
    fun id hid => h id hid
  have h3 := refSynced_fullscreenChange h2 false
  unfold exitMobileFullscreen
  dsimp only
  split
  · split
    · split
      · exact fun id hid => h3 id hid
      · exact fun id hid => h id hid
    · exact fun id hid => h id hid
  · exact fun id hid => h id hid

theorem refSynced_enterDesktop {s : PSt} (h : refSynced s) (o : FsOracle) :
    refSynced (enterFullscreenDesktop s o) := by
  unfold enterFullscreenDesktop
  split
  · split
    · exact refSynced_fullscreenChange h true
    · exact fun id hid => h id hid
  · exact fun id hid => h id hid

theorem refSynced_exitDesktop {s : PSt} (h : refSynced s) (o : FsOracle) :
    refSynced (exitFullscreenDesktop s o) := by
  unfold exitFullscreenDesktop
  split
  · split
    · exact refSynced_fullscreenChange h false
    · exact fun id hid => h id hid
  · exact fun id hid => h id hid

theorem refSynced_toggleFullscreen {s : PSt} (h : refSynced s) (o : FsOracle) :
    refSynced (toggleFullscreen s o) := by
  have hEd := refSynced_exitDesktop h o
  have hEm := refSynced_exitMobile h o
  have hNd := refSynced_enterDesktop h o
  have hNm := refSynced_enterMobile h o
  unfold toggleFullscreen
  dsimp only
  split
  · split
    · exact fun id hid => hEm id hid
    · exact fun id hid => hEd id hid
  · split
    · exact fun id hid => hNm id hid
    · exact fun id hid => hNd id hid

theorem refSynced_step {s : PSt} (h : refSynced s) (e : PEv) :
    refSynced (step s e) := by
  cases e with
  | mouseMove => exact refSynced_handleMouseMove h
  | mouseLeave => exact fun id hid => h id hid
  | overlayClick =>
      simp only [step]
      split
      · exact h
      · exact fun id hid => h id hid
  | hideTimeout id => exact refSynced_fireHide h id
  | playEvt => exact fun id hid => h id hid
  | pauseEvt =>
      have h1 := refSynced_cancelHide h
      exact fun id hid => h1 id hid
  | endedEvt =>
      have h1 := refSynced_cancelHide h
      exact fun id hid => h1 id hid
  | errorEvt => exact fun id hid => h id hid
  | fschange b => exact refSynced_fullscreenChange h b
  | toggleFs o => exact refSynced_toggleFullscreen h o

theorem refSynced_run {s : PSt} (h : refSynced s) (es : List PEv) :
    refSynced (run s es) := by
  induction es generalizing s with
  | nil => exact h
  | cons e es ih => exact ih (refSynced_step h e)

@[simp] theorem cancelHide_device (s : PSt) : (cancelHide s).device = s.device := by
  unfold cancelHide
  cases s.ctRef <;> rfl

@[simp] theorem cancelHide_isPlaying (s : PSt) :
    (cancelHide s).isPlaying = s.isPlaying := by
  unfold cancelHide
  cases s.ctRef <;> rfl

@[simp] theorem cancelHide_isImage (s : PSt) :
    (cancelHide s).isImage = s.isImage := by
  unfold cancelHide
  cases s.ctRef <;> rfl

@[simp] theorem cancelHide_showControls (s : PSt) :
    (cancelHide s).showControls = s.showControls := by
  unfold cancelHide
  cases s.ctRef <;> rfl

@[simp] theorem cancelHide_isFullscreen (s : PSt) :
    (cancelHide s).isFullscreen = s.isFullscreen := by
  unfold cancelHide
  cases s.ctRef <;> rfl

@[simp] theorem cancelHide_isMobileFullscreen (s : PSt) :
    (cancelHide s).isMobileFullscreen = s.isMobileFullscreen := by
  unfold cancelHide
  cases s.ctRef <;> rfl

@[simp] theorem cancelHide_isNativeFullscreen (s : PSt) :
    (cancelHide s).isNativeFullscreen = s.isNativeFullscreen := by
  unfold cancelHide
  cases s.ctRef <;> rfl

@[simp] theorem cancelHide_emulatedStyles (s : PSt) :
    (cancelHide s).emulatedStyles = s.emulatedStyles := by
  unfold cancelHide
  cases s.ctRef <;> rfl

@[simp] theorem cancelHide_scrollLocked (s : PSt) :
    (cancelHide s).scrollLocked = s.scrollLocked := by
  unfold cancelHide
  cases s.ctRef <;> rfl

@[simp] theorem cancelHide_orientationLocked (s : PSt) :
    (cancelHide s).orientationLocked = s.orientationLocked := by
  unfold cancelHide
  cases s.ctRef <;> rfl

@[simp] theorem handleMouseMove_device (s : PSt) :
    (handleMouseMove s).device = s.device := by
  unfold handleMouseMove
  dsimp only
  split <;> simp

@[simp] theorem handleMouseMove_isPlaying (s : PSt) :
    (handleMouseMove s).isPlaying = s.isPlaying := by
  unfold handleMouseMove
  dsimp only
  split <;> simp

@[simp] theorem handleMouseMove_isImage (s : PSt) :
    (handleMouseMove s).isImage = s.isImage := by
  unfold handleMouseMove
  dsimp only
  split <;> simp

@[simp] theorem handleMouseMove_showControls (s : PSt) :
    (handleMouseMove s).showControls = true := by
  unfold handleMouseMove
  dsimp only
  split <;> simp

@[simp] theorem handleMouseMove_isFullscreen (s : PSt) :
    (handleMouseMove s).isFullscreen = s.isFullscreen := by
  unfold handleMouseMove
  dsimp only
  split <;> simp

@[simp] theorem handleMouseMove_isMobileFullscreen (s : PSt) :
    (handleMouseMove s).isMobileFullscreen = s.isMobileFullscreen := by
  unfold handleMouseMove
  dsimp only
  split <;> simp

@[simp] theorem handleMouseMove_isNativeFullscreen (s : PSt) :
    (handleMouseMove s).isNativeFullscreen = s.isNativeFullscreen := by
  unfold handleMouseMove
  dsimp only
  split <;> simp

@[simp] theorem fireHide_device (s : PSt) (id : Nat) :
    (fireHide s id).device = s.device := by
  unfold fireHide
  split <;> rfl

@[simp] theorem fireHide_isPlaying (s : PSt) (id : Nat) :
    (fireHide s id).isPlaying = s.isPlaying := by
  unfold fireHide
  split <;> rfl

@[simp] theorem fireHide_isImage (s : PSt) (id : Nat) :
    (fireHide s id).isImage = s.isImage := by
  unfold fireHide
  split <;> rfl

@[simp] theorem fireHide_isFullscreen (s : PSt) (id : Nat) :
    (fireHide s id).isFullscreen = s.isFullscreen := by
  unfold fireHide
  split <;> rfl

@[simp] theorem fireHide_isMobileFullscreen (s : PSt) (id : Nat) :
    (fireHide s id).isMobileFullscreen = s.isMobileFullscreen := by
  unfold fireHide
  split <;> rfl

@[simp] theorem fireHide_isNativeFullscreen (s : PSt) (id : Nat) :
    (fireHide s id).isNativeFullscreen = s.isNativeFullscreen := by
  unfold fireHide
  split <;> rfl

@[simp] theorem fullscreenChange_device (s : PSt) (b : Bool) :
    (fullscreenChange s b).device = s.device := by
  unfold fullscreenChange
  dsimp only
  split <;> simp

@[simp] theorem fullscreenChange_isPlaying (s : PSt) (b : Bool) :
    (fullscreenChange s b).isPlaying = s.isPlaying := by
  unfold fullscreenChange
  dsimp only
  split <;> simp

@[simp] theorem fullscreenChange_isImage (s : PSt) (b : Bool) :
    (fullscreenChange s b).isImage = s.isImage := by
  unfold fullscreenChange
  dsimp only
  split <;> simp

@[simp] theorem fullscreenChange_showControls (s : PSt) (b : Bool) :
    (fullscreenChange s b).showControls = true := by
  unfold fullscreenChange
  dsimp only
  split <;> simp

@[simp] theorem fullscreenChange_isFullscreen (s : PSt) (b : Bool) :
    (fullscreenChange s b).isFullscreen = (b || s.isMobileFullscreen) := by
  unfold fullscreenChange
  dsimp only
  split <;> simp

@[simp] theorem fullscreenChange_isMobileFullscreen (s : PSt) (b : Bool) :
    (fullscreenChange s b).isMobileFullscreen = s.isMobileFullscreen := by
  unfold fullscreenChange
  dsimp only
  split <;> simp

@[simp] theorem fullscreenChange_isNativeFullscreen (s : PSt) (b : Bool) :
    (fullscreenChange s b).isNativeFullscreen = b := by
  unfold fullscreenChange
  dsimp only
  split <;> simp

theorem pending_length_of_refSynced {s : PSt} (h : refSynced s) :
    s.pending.length ≤ 1 := by
  rcases refSynced_cases h with hp | ⟨id, hp, _⟩ <;> simp [hp]

theorem fullscreenChange_pending_of_not {s : PSt} (h : refSynced s) (b : Bool)
    (hc : (b || s.isMobileFullscreen) = false) :
    (fullscreenChange s b).pending = [] := by
  have h1 : refSynced { s with
      isNativeFullscreen := b, isFullscreen := b || s.isMobileFullscreen } :=
    fun id hid => h id hid
  unfold fullscreenChange
  dsimp only
  rw [if_pos]
  · dsimp only
    exact (cancelHide_spec h1).1
  · rw [hc]
    rfl

theorem fullscreenChange_pending_of {s : PSt} (b : Bool)
    (hc : (b || s.isMobileFullscreen) = true) :
    (fullscreenChange s b).pending = s.pending := by
  unfold fullscreenChange
  dsimp only
  rw [if_neg]
  simp [hc]

theorem handleMouseMove_pending {s : PSt} (h : refSynced s) :
    (handleMouseMove s).pending = [] ∨
    ((s.isFullscreen || s.isMobileFullscreen) = true ∧ s.isPlaying = true) := by
  have h1 : refSynced { s with showControls := true } := fun id hid => h id hid
  have h2 := cancelHide_spec h1
  unfold handleMouseMove
  dsimp only
  split
  · rename_i hg
    right
    unfold hideGuard at hg
    simp only [cancelHide_isFullscreen, cancelHide_isMobileFullscreen,
      cancelHide_isPlaying, cancelHide_isImage, Bool.and_eq_true] at hg
    exact ⟨hg.1.1, hg.1.2⟩
  · left
    exact h2.1

theorem toggleFullscreen_exit_native {s : PSt} {o : FsOracle}
    (hdev : s.device = Device.desktop) (hmfs : s.isMobileFullscreen = false)
    (hfs : s.isFullscreen = true) (hnative : s.isNativeFullscreen = true)
    (hea : o.exitAvail = true) (heo : o.exitOk = true) :
    toggleFullscreen s o = { fullscreenChange s false with isFullscreen := false } := by
  unfold toggleFullscreen exitFullscreenDesktop
  simp [hdev, hmfs, hfs, hnative, hea, heo]

theorem toggleFullscreen_enter_native {s : PSt} {o : FsOracle}
    (hdev : s.device = Device.desktop) (hmfs : s.isMobileFullscreen = false)
    (hfs : s.isFullscreen = false)
    (hna : o.nativeAvail = true) (hno : o.nativeOk = true) :
    toggleFullscreen s o = { fullscreenChange s true with isFullscreen := true } := by
  unfold toggleFullscreen enterFullscreenDesktop
  simp [hdev, hmfs, hfs, hna, hno]

theorem invC2_step {s : PSt} (hI : InvC2 s) (e : PEv) (he : allowedEv e = true) :
    InvC2 (step s e) := by
  obtain ⟨hdev, hmfs, hnat, hsync, hvis, hpend⟩ := hI
  cases e with
  | mouseMove =>
      simp only [step]
      refine ⟨by simp [hdev], by simp [hmfs], by simpa using hnat,
        refSynced_handleMouseMove hsync, by simp, ?_⟩
      intro hne
      rcases handleMouseMove_pending hsync with hp | ⟨hor, hpl⟩
      · exact absurd hp hne
      · have hfs : s.isFullscreen = true := by
          cases hb : s.isFullscreen
          · rw [hb, hmfs] at hor
            cases hor
          · rfl
        exact ⟨by simpa using hpl, by simpa using hfs⟩
  | mouseLeave =>
      exact ⟨hdev, hmfs, hnat, fun id hid => hsync id hid, fun _ => rfl, hpend⟩
  | overlayClick =>
      simp only [step]
      split
      · exact ⟨hdev, hmfs, hnat, hsync, hvis, hpend⟩
      · exact ⟨hdev, hmfs, hnat, fun id hid => hsync id hid, fun _ => rfl, hpend⟩
  | hideTimeout id =>
      simp only [step]
      unfold fireHide
      split
      · rename_i hmem
        have hmemne : s.pending ≠ [] := by
          intro hcon
          rw [hcon] at hmem
          cases hmem
        obtain ⟨hpl, hfs⟩ := hpend hmemne
        rcases refSynced_cases hsync with hp | ⟨j, hp, hr⟩
        · exact absurd hp hmemne
        · rw [hp] at hmem
          rcases List.mem_singleton.mp hmem with rfl
          refine ⟨hdev, hmfs, hnat, ?_, ?_, ?_⟩
          · intro k hk
            dsimp only at hk
            rw [hp] at hk
            simp at hk
          · intro hc
            rcases hc with hc | hc
            · rw [hpl] at hc
              cases hc
            · rw [hfs] at hc
              cases hc
          · intro hne
            exfalso
            apply hne
            dsimp only
            rw [hp]
            simp
      · exact ⟨hdev, hmfs, hnat, hsync, hvis, hpend⟩
  | playEvt =>
      refine ⟨hdev, hmfs, hnat, fun id hid => hsync id hid, fun _ => rfl, ?_⟩
      intro hne
      exact ⟨rfl, (hpend hne).2⟩
  | pauseEvt =>
      simp only [step]
      have h1 := refSynced_cancelHide hsync
      have h2 := cancelHide_spec hsync
      refine ⟨by simp [hdev], by simp [hmfs], by simpa using hnat,
        fun id hid => h1 id hid, fun _ => rfl, ?_⟩
      intro hne
      exfalso
      apply hne
      exact h2.1
  | endedEvt =>
      simp only [step]
      have h1 := refSynced_cancelHide hsync
      have h2 := cancelHide_spec hsync
      refine ⟨by simp [hdev], by simp [hmfs], by simpa using hnat,
        fun id hid => h1 id hid, fun _ => rfl, ?_⟩
      intro hne
      exfalso
      apply hne
      exact h2.1
  | errorEvt =>
      simp [allowedEv] at he
  | fschange b =>
      simp only [step]
      have hfs2 : (fullscreenChange s b).isFullscreen = b := by
        simp [hmfs]
      refine ⟨by simp [hdev], by simp [hmfs], ?_,
        refSynced_fullscreenChange hsync b, by simp, ?_⟩
      · intro hb
        rw [hfs2] at hb
        simp [hb]
      · intro hne
        by_cases hb : (b || s.isMobileFullscreen) = true
        · have hpe := fullscreenChange_pending_of b hb
          rw [hpe] at hne
          obtain ⟨hpl, _⟩ := hpend hne
          have hb2 : b = true := by
            rw [hmfs] at hb
            simpa using hb
          exact ⟨by simpa using hpl, by rw [hfs2, hb2]⟩
        · have hb2 : (b || s.isMobileFullscreen) = false := by
            simpa using hb
          have hpe := fullscreenChange_pending_of_not hsync b hb2
          exact absurd hpe hne
  | toggleFs o =>
      simp only [allowedEv, Bool.and_eq_true] at he
      obtain ⟨⟨⟨hna, hno⟩, hea⟩, heo⟩ := he
      by_cases hfs : s.isFullscreen = true
      · have hres := toggleFullscreen_exit_native hdev hmfs hfs (hnat hfs) hea heo
        simp only [step]
        rw [hres]
        have hpe : (fullscreenChange s false).pending = [] := by
          apply fullscreenChange_pending_of_not hsync
          rw [hmfs]
          rfl
        refine ⟨by simp [hdev], by simp [hmfs], ?_,
          fun id hid => (refSynced_fullscreenChange hsync false) id hid,
          fun _ => by simp, ?_⟩
        · intro hb
          cases hb
        · intro hne
          exact absurd hpe hne
      · have hfs2 : s.isFullscreen = false := by
          cases hb : s.isFullscreen
          · rfl
          · exact absurd hb hfs
        have hres := toggleFullscreen_enter_native hdev hmfs hfs2 hna hno
        simp only [step]
        rw [hres]
        have hpe : (fullscreenChange s true).pending = s.pending :=
          fullscreenChange_pending_of true rfl
        refine ⟨by simp [hdev], by simp [hmfs], fun _ => by simp,
          fun id hid => (refSynced_fullscreenChange hsync true) id hid,
          fun _ => by simp, ?_⟩
        intro hne
        have hne2 : s.pending ≠ [] := by
          intro hcon
          apply hne
          dsimp only
          rw [hpe, hcon]
        obtain ⟨_, hfsold⟩ := hpend hne2
        exact absurd hfsold hfs

theorem invC2_run {s : PSt} (hI : InvC2 s) (es : List PEv)
    (hes : ∀ e ∈ es, allowedEv e = true) : InvC2 (run s es) := by
  induction es generalizing s with
  | nil => exact hI
  | cons e es ih =>
      exact ih (invC2_step hI e (hes e (List.mem_cons_self e es)))
        (fun f hf => hes f (List.mem_cons_of_mem e hf))

theorem invC2_init (img : Bool) : InvC2 (initState Device.desktop img) := by
  refine ⟨rfl, rfl, ?_, ?_, fun _ => rfl, ?_⟩
  · intro h
    cases h
  · intro id hid
    cases hid
  · intro hne
    exact absurd rfl hne

theorem invC2_claim {s : PSt} (h : InvC2 s) :
    ((s.isPlaying = false ∨ fullscreenState s = FsMode.windowed) →
      s.showControls = true) ∧
    (s.pending ≠ [] →
      s.isPlaying = true ∧ fullscreenState s ≠ FsMode.windowed) := by
  obtain ⟨hdev, hmfs, hnat, hsync, hvis, hpend⟩ := h
  constructor
  · intro hc
    rcases hc with hc | hc
    · exact hvis (Or.inl hc)
    · apply hvis
      right
      cases hf : s.isFullscreen
      · rfl
      · exfalso
        unfold fullscreenState at hc
        rw [hnat hf] at hc
        simp at hc
  · intro hne
    obtain ⟨hpl, hfs⟩ := hpend hne
    refine ⟨hpl, ?_⟩
    intro hc
    unfold fullscreenState at hc
    rw [hnat hfs] at hc
    simp at hc

set_option maxHeartbeats 2000000 in
/-- C1: from a windowed start on either device class, toggleFullscreen
called twice (enter then exit) returns the FullscreenState to windowed
with the emulated styling cleared and page scrolling restored, for every
entry outcome (native success, native unavailable or throwing with
emulated fallback, the mobile orientation-lock path and its iOS webkit
fallback), provided the exit-side document exitFullscreen call is
available and resolves when it is made. -/
theorem C1_toggle_fullscreen_roundtrip (d : Device) (img : Bool)
    (o1 o2 : FsOracle) (h1 : o2.exitAvail = true) (h2 : o2.exitOk = true) :
    fullscreenState (run (initState d img) [PEv.toggleFs o1, PEv.toggleFs o2])
        = FsMode.windowed ∧
    (run (initState d img)
        [PEv.toggleFs o1, PEv.toggleFs o2]).emulatedStyles = false ∧
    (run (initState d img)
        [PEv.toggleFs o1, PEv.toggleFs o2]).scrollLocked = false := by
  obtain ⟨l1, na1, no1, wa1, wo1, ea1, eo1⟩ := o1
  obtain ⟨l2, na2, no2, wa2, wo2, ea2, eo2⟩ := o2
  dsimp only at h1 h2
  subst h1
  subst h2
  cases d <;>
    (revert img l1 na1 no1 wa1 wo1 ea1 eo1 l2 na2 no2 wa2 wo2; decide)

/-- Witness for C1 at the mobile emulated entry path (orientation lock,
native and webkit requests all failing). -/
theorem C1_toggle_fullscreen_roundtrip_witness :
    fullscreenState (run (initState Device.mobile false)
        [PEv.toggleFs ⟨false, false, false, false, false, true, true⟩,
         PEv.toggleFs ⟨false, false, false, false, false, true, true⟩])
        = FsMode.windowed ∧
    (run (initState Device.mobile false)
        [PEv.toggleFs ⟨false, false, false, false, false, true, true⟩,
         PEv.toggleFs ⟨false, false, false, false, false, true, true⟩]).emulatedStyles
        = false ∧
    (run (initState Device.mobile false)
        [PEv.toggleFs ⟨false, false, false, false, false, true, true⟩,
         PEv.toggleFs ⟨false, false, false, false, false, true, true⟩]).scrollLocked
        = false :=
  C1_toggle_fullscreen_roundtrip Device.mobile false
    ⟨false, false, false, false, false, true, true⟩
    ⟨false, false, false, false, false, true, true⟩ rfl rfl

/-- C2 counterexample: on the mobile emulated path (native fullscreen
unavailable) the trace enter fullscreen, play, mouse move, hide-timeout
expiry, exit fullscreen ends windowed and still playing with the controls
hidden, because exitMobileFullscreen neither cancels the pending hide
timeout nor forces the controls visible; the claim requires controls
visible whenever FullscreenState is windowed. -/
theorem C2_windowed_hidden_counterexample :
    fullscreenState (run (initState Device.mobile false)
        [PEv.toggleFs ⟨false, false, false, false, false, true, true⟩,
         PEv.playEvt, PEv.mouseMove, PEv.hideTimeout 0,
         PEv.toggleFs ⟨false, false, false, false, false, true, true⟩])
        = FsMode.windowed ∧
    (run (initState Device.mobile false)
        [PEv.toggleFs ⟨false, false, false, false, false, true, true⟩,
         PEv.playEvt, PEv.mouseMove, PEv.hideTimeout 0,
         PEv.toggleFs ⟨false, false, false, false, false, true, true⟩]).showControls
        = false ∧
    (run (initState Device.mobile false)
        [PEv.toggleFs ⟨false, false, false, false, false, true, true⟩,
         PEv.playEvt, PEv.mouseMove, PEv.hideTimeout 0,
         PEv.toggleFs ⟨false, false, false, false, false, true, true⟩]).isPlaying
        = true := by
  decide

/-- C2 amended: on the desktop path, along traces without engine error
events and whose fullscreen toggles find the whole native API chain
available and succeeding, every reachable snapshot has the controls
visible whenever not playing or windowed, and a scheduled hide timeout
only exists while playing in fullscreen. -/
theorem C2_visibility_invariant_amended (img : Bool) (es : List PEv)
    (hes : ∀ e ∈ es, allowedEv e = true) :
    (((run (initState Device.desktop img) es).isPlaying = false ∨
        fullscreenState (run (initState Device.desktop img) es)
          = FsMode.windowed) →
      (run (initState Device.desktop img) es).showControls = true) ∧
    ((run (initState Device.desktop img) es).pending ≠ [] →
      (run (initState Device.desktop img) es).isPlaying = true ∧
      fullscreenState (run (initState Device.desktop img) es)
        ≠ FsMode.windowed) :=
  invC2_claim (invC2_run (invC2_init img) es hes)

/-- Witness for C2 amended on a concrete allowed trace: native fullscreen
enter, play event, mouse move. -/
theorem C2_visibility_invariant_amended_witness :
    (((run (initState Device.desktop false)
        [PEv.toggleFs ⟨true, true, true, true, true, true, true⟩,
         PEv.playEvt, PEv.mouseMove]).isPlaying = false ∨
        fullscreenState (run (initState Device.desktop false)
          [PEv.toggleFs ⟨true, true, true, true, true, true, true⟩,
           PEv.playEvt, PEv.mouseMove]) = FsMode.windowed) →
      (run (initState Device.desktop false)
        [PEv.toggleFs ⟨true, true, true, true, true, true, true⟩,
         PEv.playEvt, PEv.mouseMove]).showControls = true) ∧
    ((run (initState Device.desktop false)
        [PEv.toggleFs ⟨true, true, true, true, true, true, true⟩,
         PEv.playEvt, PEv.mouseMove]).pending ≠ [] →
      (run (initState Device.desktop false)
        [PEv.toggleFs ⟨true, true, true, true, true, true, true⟩,
         PEv.playEvt, PEv.mouseMove]).isPlaying = true ∧
      fullscreenState (run (initState Device.desktop false)
        [PEv.toggleFs ⟨true, true, true, true, true, true, true⟩,
         PEv.playEvt, PEv.mouseMove]) ≠ FsMode.windowed) :=
  C2_visibility_invariant_amended false
    [PEv.toggleFs ⟨true, true, true, true, true, true, true⟩,
     PEv.playEvt, PEv.mouseMove] (by decide)

/-- C3: along every trace of the player machine from a freshly opened
session, at most one hide-timeout handle is outstanding at any time:
handleMouseMove is the only arming site and it always clears the ref
first. -/
theorem C3_single_hide_timer (d : Device) (img : Bool) (es : List PEv) :
    ((run (initState d img) es).pending).length ≤ 1 := by
  apply pending_length_of_refSynced
  apply refSynced_run
  intro id hid
  cases hid

/-- C4: with the engine initially paused and no engine event yet
delivered, two togglePlayPause calls of the episode-navigation revision
both read the stale cached isPlaying flag and both issue play, leaving
the engine playing (net intent play, not the required two-mod-two no-op),
while the fixed revision reads the engine paused property and returns the
engine to paused. -/
theorem C4_cached_toggle_double_play :
    (iterateToggleNav 2
        { enginePaused := true, cachedIsPlaying := false, issued := [] }).issued
        = [Cmd.play, Cmd.play] ∧
    (iterateToggleNav 2
        { enginePaused := true, cachedIsPlaying := false, issued := [] }).enginePaused
        = false ∧
    (iterateToggleFixed 2
        { enginePaused := true, cachedIsPlaying := false, issued := [] }).issued
        = [Cmd.play, Cmd.pause] ∧
    (iterateToggleFixed 2
        { enginePaused := true, cachedIsPlaying := false, issued := [] }).enginePaused
        = true := by
  decide

/-- C5: after ended with a next episode and autoplay on, pressing Cancel
and letting the unstored 5-second timeout expire still fires the replace
(the Cancel button only hides the overlay and no handle is kept to clear
the timeout); when not cancelled the replace fires exactly once even if
the expiry is delivered twice. -/
theorem C5_cancel_does_not_stop_autoplay :
    (autoRun (autoStart 7)
        [AutoEv.ended, AutoEv.cancel, AutoEv.expire 0]).replaced = [7] ∧
    (autoRun (autoStart 7)
        [AutoEv.ended, AutoEv.expire 0, AutoEv.expire 0]).replaced = [7] := by
  decide

/-- C6 counterexample: a fetch started for session 1 resolves after the
session was replaced by session 2, and its payload still populates the
new session context (next becomes episode 5), contradicting the claim
that a stale result is discarded. -/
theorem C6_stale_fetch_counterexample :
    (sessRun { sessionId := 1, ctx := emptyCtx }
        [SessEv.replace 2,
         SessEv.resolve 1 (Resp.ok true (some 5)) (Resp.ok true none)
           (SeriesResp.ok true [])]).sessionId = 2 ∧
    (sessRun { sessionId := 1, ctx := emptyCtx }
        [SessEv.replace 2,
         SessEv.resolve 1 (Resp.ok true (some 5)) (Resp.ok true none)
           (SeriesResp.ok true [])]).ctx.next = some 5 := by
  decide

/-- C6 amended: a resolving episode fetch applies its result to the
current session context unconditionally, even when the session it was
started for differs from the current one; fetchEpisodeData carries no
session tag. -/
theorem C6_fetch_applied_unconditionally (s : SessSt) (f ep : Nat)
    (sP : Bool) (pP : Option Nat) (sS : Bool) (eps : List Nat)
    (hstale : f ≠ s.sessionId) :
    (sessStep s (SessEv.resolve f (Resp.ok true (some ep)) (Resp.ok sP pP)
        (SeriesResp.ok sS eps))).ctx.next = some ep ∧
    (sessStep s (SessEv.resolve f (Resp.ok true (some ep)) (Resp.ok sP pP)
        (SeriesResp.ok sS eps))).sessionId = s.sessionId := by
  constructor
  · simp [sessStep, fetchEpisodeData]
  · rfl

/-- Witness for C6 amended at a concrete stale resolve against session 2. -/
theorem C6_fetch_applied_unconditionally_witness :
    (sessStep { sessionId := 2, ctx := emptyCtx }
        (SessEv.resolve 1 (Resp.ok true (some 5)) (Resp.ok true none)
          (SeriesResp.ok true []))).ctx.next = some 5 ∧
    (sessStep { sessionId := 2, ctx := emptyCtx }
        (SessEv.resolve 1 (Resp.ok true (some 5)) (Resp.ok true none)
          (SeriesResp.ok true []))).sessionId = 2 :=
  C6_fetch_applied_unconditionally { sessionId := 2, ctx := emptyCtx }
    1 5 true none true [] (by decide)

/-- C7 counterexample: with a stale context from a previous session
(next episode 3, series list with one entry), a rejected fetch leaves
next present, and non-success responses on all three endpoints leave the
series list non-empty, contradicting the claim that every failure leaves
all three absent or empty. -/
theorem C7_failure_keeps_stale_context :
    (fetchEpisodeData { next := some 3, prev := none, list := [3] }
        Resp.err Resp.err SeriesResp.err).next = some 3 ∧
    (fetchEpisodeData { next := some 3, prev := none, list := [3] }
        (Resp.ok false none) (Resp.ok false none)
        (SeriesResp.ok false [])).list = [3] := by
  decide

/-- C7 amended: for a session whose context is still fresh (all absent or
empty), every combination of endpoint failures (rejection or non-success
response) leaves the context absent or empty without any exception
escaping, and on ended the engine then shows the recommendations overlay
rather than a next-episode prompt. -/
theorem C7_failure_on_fresh_context (rN rP : Resp) (rS : SeriesResp)
    (a : Bool) (k : Nat) (hN : respFails rN = true) (hP : respFails rP = true)
    (hS : seriesFails rS = true) (hk : 0 < k) :
    fetchEpisodeData emptyCtx rN rP rS = emptyCtx ∧
    handleEndedDisplay a (fetchEpisodeData emptyCtx rN rP rS).next k
        = EndedDisplay.recommendations := by
  have hctx : fetchEpisodeData emptyCtx rN rP rS = emptyCtx := by
    cases rN with
    | err => rfl
    | ok sN pN =>
        cases rP with
        | err => rfl
        | ok sP pP =>
            cases rS with
            | err => rfl
            | ok sS eps =>
                simp only [respFails, Bool.not_eq_true'] at hN hP
                simp only [seriesFails, Bool.not_eq_true'] at hS
                simp [fetchEpisodeData, hN, hP, hS, emptyCtx]
  refine ⟨hctx, ?_⟩
  rw [hctx]
  simp [handleEndedDisplay, emptyCtx, hk]

/-- Witness for C7 amended: every endpoint rejecting, autoplay enabled,
three recommendations supplied. -/
theorem C7_failure_on_fresh_context_witness :
    fetchEpisodeData emptyCtx Resp.err Resp.err SeriesResp.err = emptyCtx ∧
    handleEndedDisplay true
        (fetchEpisodeData emptyCtx Resp.err Resp.err SeriesResp.err).next 3
        = EndedDisplay.recommendations :=
  C7_failure_on_fresh_context Resp.err Resp.err SeriesResp.err true 3
    rfl rfl rfl (by decide)

/-- C8: when a media element is present, the volume stored by
adjustVolume lies in the interval from 0 to 100 and the rate stored by
changePlaybackRate lies in the interval from one quarter to 2, for every
input magnitude and sign. -/
theorem C8_volume_rate_clamped (s : CtrlState) (e : MediaEl)
    (delta rate : ℚ) (h : s.engine = some e) :
    (0 ≤ (adjustVolume s delta).volume ∧ (adjustVolume s delta).volume ≤ 100) ∧
    (1/4 ≤ (changePlaybackRate s rate).playbackRate ∧
      (changePlaybackRate s rate).playbackRate ≤ 2) := by
  obtain ⟨v, m, ct, d, pr, eng⟩ := s
  dsimp only at h
  subst h
  refine ⟨⟨?_, ?_⟩, ⟨?_, ?_⟩⟩
  · show (0 : ℚ) ≤ max 0 (min 100 (v + delta))
    exact le_max_left 0 _
  · show max 0 (min 100 (v + delta)) ≤ 100
    exact max_le (by norm_num) (min_le_left _ _)
  · show (1/4 : ℚ) ≤ max (1/4) (min 2 rate)
    exact le_max_left _ _
  · show max (1/4) (min 2 rate) ≤ 2
    exact max_le (by norm_num) (min_le_left _ _)

/-- Witness for C8 at volume delta 1000 and rate 100 on the sample
state. -/
theorem C8_volume_rate_clamped_witness :
    (0 ≤ (adjustVolume sampleCtrl 1000).volume ∧
      (adjustVolume sampleCtrl 1000).volume ≤ 100) ∧
    (1/4 ≤ (changePlaybackRate sampleCtrl 100).playbackRate ∧
      (changePlaybackRate sampleCtrl 100).playbackRate ≤ 2) :=
  C8_volume_rate_clamped sampleCtrl sampleEl 1000 100 rfl

/-- C9: when a media element is present and the duration is nonzero,
skipTime sets the position to the clamp of currentTime plus the delta
into the interval from 0 to duration, for every delta and position. -/
theorem C9_skip_clamped (s : CtrlState) (e : MediaEl) (seconds : ℚ)
    (h : s.engine = some e) (hd : s.duration ≠ 0) :
    (skipTime s seconds).currentTime
        = max 0 (min s.duration (s.currentTime + seconds)) := by
  obtain ⟨v, m, ct, d, pr, eng⟩ := s
  dsimp only at h hd ⊢
  subst h
  simp [skipTime, hd]

/-- Witness for C9: skip of minus 10 seconds at currentTime 3 with
duration 100 clamps to position 0. -/
theorem C9_skip_clamped_witness :
    (skipTime sampleCtrl (-10)).currentTime = 0 := by
  have h := C9_skip_clamped sampleCtrl sampleEl (-10) rfl
    (by norm_num [sampleCtrl])
  rw [h]
  norm_num [sampleCtrl, min_def, max_def]

/-- C10: when a media element is present, adjustVolume unconditionally
clears the muted flag on the controller state and on the element, for
every delta. -/
theorem C10_adjust_volume_unmutes (s : CtrlState) (e : MediaEl) (delta : ℚ)
    (h : s.engine = some e) :
    (adjustVolume s delta).isMuted = false ∧
    Option.map MediaEl.muted (adjustVolume s delta).engine = some false := by
  obtain ⟨v, m, ct, d, pr, eng⟩ := s
  dsimp only at h
  subst h
  exact ⟨rfl, rfl⟩

/-- Witness for C10 at delta minus 75, which drives the volume to 0 and
still leaves the muted flags cleared. -/
theorem C10_adjust_volume_unmutes_witness :
    (adjustVolume sampleCtrl (-75)).isMuted = false ∧
    Option.map MediaEl.muted (adjustVolume sampleCtrl (-75)).engine
        = some false :=
  C10_adjust_volume_unmutes sampleCtrl sampleEl (-75) rfl

end Sencloud
